import Mathlib

/-!
Verification of `setup-image-analysis.py`, the single-file installer script of
the `epub-accessibility-fixer` repository.

The script is shallowly embedded: every observable action (a `print`, a shell
command run through `run_command`, the argv-style version probe of
`check_python`) is recorded as an `Event` in a trace, and the outside world is
an `Env` record giving the outcome of each external action (`shutil.which`
results, the exit status of each shell command string, the interactive input
line, `sys.platform`, `sys.executable`).  Each embedded function returns the
same value as the Python function together with the trace of events it emits,
in order.
-/

/-- One observable action of the script: a `print(s)` call (argument string,
without the trailing newline `print` adds), a shell command executed via
`subprocess.check_call(cmd, shell=True)`, or an argv-vector invocation via
`subprocess.check_output(argv)`. -/
inductive Event where
  | print (s : String)
  | shell (cmd : String)
  | checkOutput (argv : List String)
  deriving DecidableEq, Repr

/-- The outside world as the script observes it: which interpreter names
`shutil.which` finds, the path `sys.executable`, whether the
`[sys.executable, "--version"]` probe succeeds and its output (or the
exception text on failure), the exit status of every shell command string,
the operator's input line, and `sys.platform`. -/
structure Env where
  which3 : Bool
  whichGeneric : Bool
  sysExecutable : String
  checkOutputOk : Bool
  versionOut : String
  errText : String
  shellExit : String → Nat
  userInput : String
  platform : String

/-- `get_python_command` (source lines 11-24): prefer `python3` when
`shutil.which` finds it, else `python` when found, else `sys.executable`. -/
def get_python_command (env : Env) : String :=
  if env.which3 then "python3"
  else if env.whichGeneric then "python"
  else env.sysExecutable

/-- `run_command` (source lines 26-32): run a shell command, return `True`
on exit status 0 and `False` on `CalledProcessError` (non-zero exit). -/
def run_command (env : Env) (command : String) : Bool × List Event :=
  (env.shellExit command == 0, [Event.shell command])

/-- `check_python` (source lines 34-42): run
`subprocess.check_output([sys.executable, "--version"])`; on success print
the version and return `True`, on failure print the error and return
`False`. -/
def check_python (env : Env) : Bool × List Event :=
  if env.checkOutputOk then
    (true, [Event.checkOutput [env.sysExecutable, "--version"],
            Event.print ("✓ Python found: " ++ env.versionOut)])
  else
    (false, [Event.checkOutput [env.sysExecutable, "--version"],
             Event.print ("✗ Python not found: " ++ env.errText)])

/-- The fixed ordered package list of `install_dependencies`
(source lines 48-53). -/
def packages : List String := ["torch", "transformers", "Pillow", "numpy"]

/-- The fixed ordered strategy list `(flag, description)` of
`install_dependencies` (source lines 59-62). -/
def install_methods : List (String × String) :=
  [("--user", "user directory"),
   ("--break-system-packages", "system packages (with override)")]

/-- The formatted shell command
`f"\x7bpython_cmd\x7d -m pip install \x7bmethod_flag\x7d \x7bpackage\x7d"`
of source line 70. -/
def pipCmd (python_cmd flag package : String) : String :=
  python_cmd ++ (" -m pip install " ++ (flag ++ (" " ++ package)))

/-- The inner strategy loop of `install_dependencies` (source lines 68-75):
try each `(flag, description)` in order, stopping at the first whose pip
command exits 0 and printing its success line. -/
def tryMethods (env : Env) (python_cmd package : String) :
    List (String × String) → Bool × List Event
  | [] => (false, [])
  | m :: rest =>
    let rc := run_command env (pipCmd python_cmd m.1 package)
    if rc.1 then
      (true, rc.2 ++
        [Event.print ("✓ " ++ package ++ " installed successfully (using " ++ m.2 ++ ")")])
    else
      let r := tryMethods env python_cmd package rest
      (r.1, rc.2 ++ r.2)

/-- The per-package remediation text of `install_dependencies`
(source lines 78-82), printed when all strategies fail for a package. -/
def remediation (python_cmd package : String) : List Event :=
  [Event.print ("✗ Failed to install " ++ package ++ " with all methods"),
   Event.print "\nYou may need to create a virtual environment:",
   Event.print ("  " ++ python_cmd ++ " -m venv epub-env"),
   Event.print "  source epub-env/bin/activate  # On macOS/Linux",
   Event.print ("  " ++ python_cmd ++ " -m pip install " ++ package)]

/-- The outer package loop of `install_dependencies` (source lines 64-85):
for each package in order, announce it, run the strategy loop, and on a
package whose strategies all fail print the remediation text and return
`False` at once (later packages are not reached). -/
def installLoop (env : Env) (python_cmd : String) : List String → Bool × List Event
  | [] => (true, [])
  | package :: rest =>
    let r := tryMethods env python_cmd package install_methods
    if r.1 then
      let rr := installLoop env python_cmd rest
      (rr.1, Event.print ("Installing " ++ package ++ "...") :: (r.2 ++ rr.2))
    else
      (false, Event.print ("Installing " ++ package ++ "...") ::
        (r.2 ++ remediation python_cmd package))

/-- `install_dependencies` (source lines 44-85): resolve the interpreter,
print the two banner lines, then run the package loop. -/
def install_dependencies (env : Env) : Bool × List Event :=
  let python_cmd := get_python_command env
  let r := installLoop env python_cmd packages
  (r.1, Event.print ("Using Python command: " ++ python_cmd) ::
        Event.print "Installing Python packages for image analysis..." :: r.2)

/-- The Tesseract probe command of source line 92. -/
def tessCmd : String := "tesseract --version > /dev/null 2>&1"

/-- The ExifTool probe command of source line 105. -/
def exifCmd : String := "exiftool -ver > /dev/null 2>&1"

/-- The platform-conditioned Tesseract installation hints
(source lines 96-102). -/
def tessHints (platform : String) : List Event :=
  if platform = "darwin" then
    [Event.print "  brew install tesseract"]
  else if platform = "linux" then
    [Event.print "  sudo apt-get install tesseract-ocr  # Debian/Ubuntu",
     Event.print "  sudo yum install tesseract          # CentOS/RHEL"]
  else
    [Event.print "  See: https://github.com/tesseract-ocr/tesseract"]

/-- The platform-conditioned ExifTool installation hints
(source lines 109-115). -/
def exifHints (platform : String) : List Event :=
  if platform = "darwin" then
    [Event.print "  brew install exiftool"]
  else if platform = "linux" then
    [Event.print "  sudo apt-get install libimage-exiftool-perl  # Debian/Ubuntu",
     Event.print "  sudo yum install perl-Image-ExifTool         # CentOS/RHEL"]
  else
    [Event.print "  See: https://exiftool.org/"]

/-- The Tesseract half of `check_optional_tools` (source lines 91-102). -/
def tessSection (env : Env) : List Event :=
  let rc := run_command env tessCmd
  if rc.1 then
    rc.2 ++ [Event.print "✓ Tesseract OCR is available"]
  else
    rc.2 ++ Event.print "! Tesseract OCR not found. Install it for text extraction from images:"
      :: tessHints env.platform

/-- The ExifTool half of `check_optional_tools` (source lines 104-115). -/
def exifSection (env : Env) : List Event :=
  let rc := run_command env exifCmd
  if rc.1 then
    rc.2 ++ [Event.print "✓ ExifTool is available"]
  else
    rc.2 ++ Event.print "! ExifTool not found. Install it for image metadata extraction:"
      :: exifHints env.platform

/-- `check_optional_tools` (source lines 87-115): header line, Tesseract
probe, ExifTool probe; returns `None` in Python, so only the trace here. -/
def check_optional_tools (env : Env) : List Event :=
  Event.print "\nChecking optional tools:" :: (tessSection env ++ exifSection env)

/-- Python whitespace as used by `str.strip()` (space, tab, newline,
carriage return, vertical tab, form feed), keyed on the code point. -/
def pySpace (c : Char) : Bool :=
  c.toNat == 32 || c.toNat == 9 || c.toNat == 10 || c.toNat == 13 ||
  c.toNat == 11 || c.toNat == 12

/-- `str.strip()` on the character list: drop leading and trailing
whitespace. -/
def stripChars (cs : List Char) : List Char :=
  ((cs.dropWhile pySpace).reverse.dropWhile pySpace).reverse

/-- `str.strip()` modelled on `String`. -/
def pyStrip (s : String) : String := ⟨stripChars s.data⟩

/-- `str.lower()` modelled on `String` (ASCII case folding, which agrees
with Python on the ASCII responses the gate compares against). -/
def pyLower (s : String) : String := ⟨s.data.map Char.toLower⟩

/-- The confirmation test of source lines 137-138:
`input(...).lower().strip() in ["y", "yes"]`. -/
def confirmed (s : String) : Bool :=
  let response := pyStrip (pyLower s)
  response == "y" || response == "yes"

/-- The two banner lines of `main` (source lines 121-122). -/
def mainHeader : List Event :=
  [Event.print "🖼️  EPUB Accessibility Fixer - Image Analysis Setup",
   Event.print ⟨List.replicate 50 '='⟩]

/-- The informational prints of `main` (source lines 128-135) plus the
prompt text passed to `input` (source line 137). -/
def infoPrints (python_cmd : String) : List Event :=
  [Event.print ("\n✓ Using Python: " ++ python_cmd),
   Event.print "\nThis will install Python packages for AI-powered image analysis.",
   Event.print "This enables automatic generation of meaningful alt text based on image content.",
   Event.print "\nPackages to be installed:",
   Event.print "- torch (PyTorch)",
   Event.print "- transformers (Hugging Face)",
   Event.print "- Pillow (PIL)",
   Event.print "- numpy",
   Event.print "\nDo you want to proceed? (y/N): "]

/-- The success prints of `main` (source lines 143-146). -/
def successPrints : List Event :=
  [Event.print "\n✓ All Python packages installed successfully!",
   Event.print "\nImage analysis capabilities are now available.",
   Event.print "The alt text fixer will automatically use AI models to generate",
   Event.print "descriptive alt text based on actual image content."]

/-- The failure prints of `main` (source lines 148-158), after which `main`
returns `False` without reaching `check_optional_tools`. -/
def failPrints (python_cmd : String) : List Event :=
  [Event.print "\n✗ Some packages failed to install.",
   Event.print "\nFor externally managed Python environments (like Homebrew), try:",
   Event.print "\n1. Using pipx (recommended):",
   Event.print "   brew install pipx",
   Event.print "   pipx install torch transformers Pillow numpy",
   Event.print "\n2. Using virtual environment:",
   Event.print ("   " ++ python_cmd ++ " -m venv epub-env"),
   Event.print "   source epub-env/bin/activate",
   Event.print ("   " ++ python_cmd ++ " -m pip install torch transformers Pillow numpy"),
   Event.print "\n3. Force install to user directory:",
   Event.print ("   " ++ python_cmd ++ " -m pip install --user torch transformers Pillow numpy")]

/-- The closing prints of `main` (source lines 163-166). -/
def donePrints : List Event :=
  [Event.print "\n🎉 Setup complete!",
   Event.print "\nUsage:",
   Event.print "The image analysis will be used automatically when fixing alt text.",
   Event.print "No additional configuration is required."]

/-- `main` (source lines 117-168): banner, interpreter probe (return `False`
on failure), info and confirmation gate (return `False` on decline), then
`install_dependencies`; on success print the success text, run
`check_optional_tools` and the closing text and return `True`; on failure
print the remediation text and return `False` — note the `return False` on
source line 159 comes before the `check_optional_tools()` call on line 161. -/
def main_setup (env : Env) : Bool × List Event :=
  let python_cmd := get_python_command env
  let cp := check_python env
  if cp.1 = false then
    (false, mainHeader ++ cp.2 ++
      [Event.print "\nPython is required but not found. Please install Python 3.7+ and try again."])
  else if confirmed env.userInput = false then
    (false, mainHeader ++ cp.2 ++ infoPrints python_cmd ++ [Event.print "Setup cancelled."])
  else
    let inst := install_dependencies env
    if inst.1 then
      (true, mainHeader ++ cp.2 ++ infoPrints python_cmd ++ inst.2 ++
        successPrints ++ check_optional_tools env ++ donePrints)
    else
      (false, mainHeader ++ cp.2 ++ infoPrints python_cmd ++ inst.2 ++ failPrints python_cmd)

/-- The `__main__` guard (source lines 170-172):
`sys.exit(0 if main() else 1)`. -/
def script_exit (env : Env) : Nat :=
  if (main_setup env).1 then 0 else 1

/-! ### Auxiliary definitions used by the statements and proofs -/

/-- The last character of a list, used to separate command strings. -/
def lastOf (l : List Char) : Option Char := l.reverse.head?

/-- The last character of a string. -/
def lastChar (s : String) : Option Char := lastOf s.data

/-- Whether the strategy loop succeeds for one package. -/
def okPkg (env : Env) (python_cmd package : String) : Bool :=
  (tryMethods env python_cmd package install_methods).1

/-- Two environments that agree on everything except possibly the outcomes
of the two optional-tool probe commands. -/
def agreesExceptProbes (e1 e2 : Env) : Prop :=
  e1.which3 = e2.which3 ∧ e1.whichGeneric = e2.whichGeneric ∧
  e1.sysExecutable = e2.sysExecutable ∧ e1.checkOutputOk = e2.checkOutputOk ∧
  e1.versionOut = e2.versionOut ∧ e1.errText = e2.errText ∧
  e1.userInput = e2.userInput ∧ e1.platform = e2.platform ∧
  ∀ cmd, cmd ≠ tessCmd → cmd ≠ exifCmd → e1.shellExit cmd = e2.shellExit cmd

/-- A world where both interpreter names exist, every command succeeds, and
the operator answers `y` on macOS. -/
def envAllOk : Env :=
  ⟨true, true, "/usr/local/bin/python3.11", true, "Python 3.11.4",
   "No such file or directory", fun _ => 0, "y", "darwin"⟩

/-- Like `envAllOk` but only the `--user` install of `torch` succeeds, so
the second package, `transformers`, fails both strategies. -/
def envSecondFails : Env :=
  ⟨true, false, "/usr/bin/python3", true, "Python 3.12.1",
   "No such file or directory",
   fun s => if s = pipCmd "python3" "--user" "torch" then 0 else 1,
   "y", "darwin"⟩

/-- A world where the interpreter resolver picks `python3` although
`sys.executable` is a different path, and the version probe fails. -/
def envProbeFails : Env :=
  ⟨true, false, "/opt/custom/python", false, "",
   "No such file or directory", fun _ => 1, "y", "linux"⟩

/-- A world reaching the confirmation gate where the operator declines. -/
def envDeclines : Env :=
  ⟨true, true, "/usr/bin/python3", true, "Python 3.10.0",
   "No such file or directory", fun _ => 0, "no", "linux"⟩

/-- A macOS world where every shell command fails, so both optional tools
are reported missing. -/
def envToolsMissing : Env :=
  ⟨true, true, "/usr/bin/python3", true, "Python 3.11.4",
   "No such file or directory", fun _ => 1, "y", "darwin"⟩

/-- Like `envAllOk` except that both optional-tool probes fail. -/
def envProbesDiffer : Env :=
  ⟨true, true, "/usr/local/bin/python3.11", true, "Python 3.11.4",
   "No such file or directory",
   fun s => if s = tessCmd then 1 else if s = exifCmd then 1 else 0,
   "y", "darwin"⟩

/-! ### Helper lemmas: characters and strings -/

lemma dropWhile_map_comm (f : Char → Char) (p : Char → Bool)
    (hp : ∀ c, p (f c) = p c) (l : List Char) :
    (l.map f).dropWhile p = (l.dropWhile p).map f := by
  induction l with
  | nil => rfl
  | cons a t ih =>
    simp only [List.map_cons, List.dropWhile_cons, hp a]
    cases h : p a with
    | true => simpa [h] using ih
    | false => simp [h]

lemma pySpace_toLower (c : Char) : pySpace (Char.toLower c) = pySpace c := by
  have hdef : Char.toLower c =
      if c.toNat ≥ 65 ∧ c.toNat ≤ 90 then Char.ofNat (c.toNat + 32) else c := rfl
  rw [hdef]
  by_cases h : c.toNat ≥ 65 ∧ c.toNat ≤ 90
  · obtain ⟨h1, h2⟩ := h
    rw [if_pos ⟨h1, h2⟩]
    have hof : ∀ m, m < 123 → 97 ≤ m → pySpace (Char.ofNat m) = false := by decide
    have hlhs : pySpace (Char.ofNat (Char.toNat c + 32)) = false := by
      apply hof <;> omega
    have hrhs : pySpace c = false := by
      simp only [pySpace, Bool.or_eq_false_iff, beq_eq_false_iff_ne, ne_eq]
      omega
    rw [hlhs, hrhs]
  · rw [if_neg h]

lemma stripChars_map_toLower (l : List Char) :
    stripChars (l.map Char.toLower) = (stripChars l).map Char.toLower := by
  unfold stripChars
  rw [dropWhile_map_comm _ _ pySpace_toLower, ← List.map_reverse,
      dropWhile_map_comm _ _ pySpace_toLower, ← List.map_reverse]

/-- Trimming and lower-casing commute: `s.lower().strip() = s.strip().lower()`. -/
lemma pyStrip_pyLower_comm (s : String) :
    pyStrip (pyLower s) = pyLower (pyStrip s) := by
  simp only [pyStrip, pyLower, stripChars_map_toLower]

lemma head?_append_of_ne_nil (a b : List Char) (h : a ≠ []) :
    (a ++ b).head? = a.head? := by
  cases a with
  | nil => exact absurd rfl h
  | cons x t => rfl

lemma lastOf_append (a b : List Char) (h : b ≠ []) :
    lastOf (a ++ b) = lastOf b := by
  unfold lastOf
  rw [List.reverse_append]
  exact head?_append_of_ne_nil _ _ (by simpa using h)

lemma lastChar_append (a b : String) (h : b.data ≠ []) :
    lastChar (a ++ b) = lastChar b := by
  unfold lastChar
  rw [String.data_append]
  exact lastOf_append _ _ h

lemma data_ne_nil_append_right (a b : String) (h : b.data ≠ []) :
    (a ++ b).data ≠ [] := by
  rw [String.data_append]
  simp [List.append_eq_nil]
  intro _
  exact fun hb => h hb

/-- A pip install command always ends with the last character of its
package name. -/
lemma lastChar_pipCmd (c f q : String) (h : q.data ≠ []) :
    lastChar (pipCmd c f q) = lastChar q := by
  unfold pipCmd
  rw [lastChar_append _ _ (data_ne_nil_append_right _ _
        (data_ne_nil_append_right _ _ (data_ne_nil_append_right _ _ h))),
      lastChar_append _ _ (data_ne_nil_append_right _ _
        (data_ne_nil_append_right _ _ h)),
      lastChar_append _ _ (data_ne_nil_append_right _ _ h),
      lastChar_append _ _ h]

/-- Two pip install commands for packages with different last characters
are different strings, whatever interpreter command and flags were used. -/
lemma pipCmd_ne_pipCmd (c f g q x : String) (hq : q.data ≠ []) (hx : x.data ≠ [])
    (h : lastChar q ≠ lastChar x) : pipCmd c f q ≠ pipCmd c g x := by
  intro he
  exact h (by rw [← lastChar_pipCmd c f q hq, ← lastChar_pipCmd c g x hx, he])

/-- A pip install command differs from any string whose last character
differs from the package name's. -/
lemma pipCmd_ne (c f q T : String) (hq : q.data ≠ [])
    (h : lastChar q ≠ lastChar T) : pipCmd c f q ≠ T := by
  intro he
  exact h (by rw [← lastChar_pipCmd c f q hq, he])

/-! ### Helper lemmas: the program's functions -/

lemma check_python_fst (env : Env) : (check_python env).1 = env.checkOutputOk := by
  cases h : env.checkOutputOk <;> simp [check_python, h]

lemma tryMethods_shell_mem (env : Env) (c p : String) :
    ∀ ms, ∀ e ∈ (tryMethods env c p ms).2,
      (∃ s, e = Event.print s) ∨
      ∃ m ∈ ms, e = Event.shell (pipCmd c m.1 p) := by
  intro ms
  induction ms with
  | nil => intro e he; simp [tryMethods] at he
  | cons m rest ih =>
    intro e he
    simp only [tryMethods, run_command] at he
    by_cases h : (env.shellExit (pipCmd c m.1 p) == 0) = true
    · simp [h] at he
      rcases he with he | he
      · exact Or.inr ⟨m, by simp, he⟩
      · exact Or.inl ⟨_, he⟩
    · simp [h] at he
      rcases he with he | he
      · exact Or.inr ⟨m, by simp, he⟩
      · rcases ih e he with hp | ⟨m', hm', he'⟩
        · exact Or.inl hp
        · exact Or.inr ⟨m', by simp [hm'], he'⟩

lemma installLoop_fst (env : Env) (c : String) :
    ∀ ps : List String, (installLoop env c ps).1 = ps.all (fun p => okPkg env c p) := by
  intro ps
  induction ps with
  | nil => simp [installLoop]
  | cons p rest ih =>
    simp only [installLoop, List.all_cons]
    by_cases h : (tryMethods env c p install_methods).1 = true
    · simp [h, okPkg, ih]
    · simp only [Bool.not_eq_true] at h
      simp [h, okPkg]

lemma installLoop_fail_decomp (env : Env) (c : String) :
    ∀ ps : List String, (installLoop env c ps).1 = false →
    ∃ pre p post, ps = pre ++ p :: post ∧
      (∀ q ∈ pre, okPkg env c q = true) ∧
      okPkg env c p = false ∧
      Event.print ("✗ Failed to install " ++ p ++ " with all methods")
        ∈ (installLoop env c ps).2 ∧
      ∀ e ∈ (installLoop env c ps).2,
        (∃ s, e = Event.print s) ∨
        ∃ q, (q ∈ pre ∨ q = p) ∧
          ∃ m ∈ install_methods, e = Event.shell (pipCmd c m.1 q) := by
  intro ps
  induction ps with
  | nil => intro h; simp [installLoop] at h
  | cons p rest ih =>
    intro h
    by_cases hp : (tryMethods env c p install_methods).1 = true
    · have hrest : (installLoop env c rest).1 = false := by
        simp only [installLoop] at h
        simpa [hp] using h
      obtain ⟨pre', p', post', heq, hpre', hp', hrem, htr⟩ := ih hrest
      refine ⟨p :: pre', p', post', by simp [heq], ?_, hp', ?_, ?_⟩
      · intro q hq
        rcases List.mem_cons.1 hq with rfl | hq
        · exact hp
        · exact hpre' q hq
      · simp only [installLoop, hp, if_pos]
        exact List.mem_cons_of_mem _ (List.mem_append_right _ hrem)
      · intro e he
        simp only [installLoop, hp, if_pos] at he
        rcases List.mem_cons.1 he with rfl | he
        · exact Or.inl ⟨_, rfl⟩
        · rcases List.mem_append.1 he with he | he
          · rcases tryMethods_shell_mem env c p install_methods e he with hpr | ⟨m, hm, he'⟩
            · exact Or.inl hpr
            · exact Or.inr ⟨p, Or.inl (by simp), m, hm, he'⟩
          · rcases htr e he with hpr | ⟨q, hq, m, hm, he'⟩
            · exact Or.inl hpr
            · refine Or.inr ⟨q, ?_, m, hm, he'⟩
              rcases hq with hq | hq
              · exact Or.inl (List.mem_cons_of_mem _ hq)
              · exact Or.inr hq
    · simp only [Bool.not_eq_true] at hp
      refine ⟨[], p, rest, by simp, by simp, hp, ?_, ?_⟩
      · simp only [installLoop, hp, Bool.false_eq_true, if_false]
        exact List.mem_cons_of_mem _ (List.mem_append_right _ (by simp [remediation]))
      intro e he
      simp only [installLoop, hp, Bool.false_eq_true, if_false] at he
      rcases List.mem_cons.1 he with rfl | he
      · exact Or.inl ⟨_, rfl⟩
      · rcases List.mem_append.1 he with he | he
        · rcases tryMethods_shell_mem env c p install_methods e he with hpr | ⟨m, hm, he'⟩
          · exact Or.inl hpr
          · exact Or.inr ⟨p, Or.inr rfl, m, hm, he'⟩
        · simp [remediation] at he
          rcases he with rfl | rfl | rfl | rfl | rfl <;> exact Or.inl ⟨_, rfl⟩

lemma installLoop_shell_mem (env : Env) (c : String) :
    ∀ ps : List String, ∀ e ∈ (installLoop env c ps).2,
      (∃ s, e = Event.print s) ∨
      ∃ q ∈ ps, ∃ m ∈ install_methods, e = Event.shell (pipCmd c m.1 q) := by
  intro ps
  induction ps with
  | nil => intro e he; simp [installLoop] at he
  | cons p rest ih =>
    intro e he
    by_cases hp : (tryMethods env c p install_methods).1 = true
    · simp only [installLoop, hp, if_pos, List.mem_cons] at he
      rcases he with rfl | he
      · exact Or.inl ⟨_, rfl⟩
      · rcases List.mem_append.1 he with he | he
        · rcases tryMethods_shell_mem env c p install_methods e he with hpr | ⟨m, hm, he'⟩
          · exact Or.inl hpr
          · exact Or.inr ⟨p, by simp, m, hm, he'⟩
        · rcases ih e he with hpr | ⟨q, hq, m, hm, he'⟩
          · exact Or.inl hpr
          · exact Or.inr ⟨q, List.mem_cons_of_mem _ hq, m, hm, he'⟩
    · simp only [Bool.not_eq_true] at hp
      simp only [installLoop, hp, Bool.false_eq_true, if_false, List.mem_cons] at he
      rcases he with rfl | he
      · exact Or.inl ⟨_, rfl⟩
      · rcases List.mem_append.1 he with he | he
        · rcases tryMethods_shell_mem env c p install_methods e he with hpr | ⟨m, hm, he'⟩
          · exact Or.inl hpr
          · exact Or.inr ⟨p, by simp, m, hm, he'⟩
        · simp [remediation] at he
          rcases he with rfl | rfl | rfl | rfl | rfl <;> exact Or.inl ⟨_, rfl⟩

lemma install_dependencies_shell_mem (env : Env) :
    ∀ e ∈ (install_dependencies env).2,
      (∃ s, e = Event.print s) ∨
      ∃ q ∈ packages, ∃ m ∈ install_methods,
        e = Event.shell (pipCmd (get_python_command env) m.1 q) := by
  intro e he
  simp only [install_dependencies, List.mem_cons] at he
  rcases he with rfl | rfl | he
  · exact Or.inl ⟨_, rfl⟩
  · exact Or.inl ⟨_, rfl⟩
  · exact installLoop_shell_mem env (get_python_command env) packages e he

lemma install_dependencies_fst (env : Env) :
    (install_dependencies env).1 = true ↔
      ∀ p ∈ packages, okPkg env (get_python_command env) p = true := by
  simp [install_dependencies, installLoop_fst, List.all_eq_true, okPkg]

lemma main_setup_fst (env : Env) :
    (main_setup env).1 = true ↔
      env.checkOutputOk = true ∧ confirmed env.userInput = true ∧
      ∀ p ∈ packages, okPkg env (get_python_command env) p = true := by
  cases hc : env.checkOutputOk with
  | false => simp [main_setup, check_python_fst, hc]
  | true =>
    cases hg : confirmed env.userInput with
    | false => simp [main_setup, check_python_fst, hc, hg]
    | true =>
      cases hi : (install_dependencies env).1 with
      | false =>
        have hni := (not_iff_not.2 (install_dependencies_fst env)).1 (by simp [hi])
        simp [main_setup, check_python_fst, hc, hg, hi, hni]
      | true =>
        have hai := (install_dependencies_fst env).1 hi
        simp only [main_setup, check_python_fst, hc, hg, hi]
        simp
        exact hai


lemma okPkg_formula (env : Env) (c p : String) :
    okPkg env c p = (env.shellExit (pipCmd c "--user" p) == 0 ||
                     env.shellExit (pipCmd c "--break-system-packages" p) == 0) := by
  simp only [okPkg, tryMethods, install_methods, run_command]
  by_cases h : (env.shellExit (pipCmd c "--user" p) == 0) = true <;>
    by_cases h2 : env.shellExit (pipCmd c "--break-system-packages" p) = 0 <;>
    simp [h, h2]

lemma packages_facts :
    packages.Nodup ∧ (∀ x ∈ packages, x.data ≠ []) ∧
    (∀ x ∈ packages, ∀ y ∈ packages, x ≠ y → lastChar x ≠ lastChar y) ∧
    (∀ x ∈ packages, lastChar x ≠ lastChar tessCmd) ∧
    (∀ x ∈ packages, lastChar x ≠ lastChar exifCmd) := by decide

/-- When the package loop fails, the fixed list splits into fully installed
packages `pre`, the first failing package `p` (whose remediation line is
printed), and later packages `post` for which no pip command of either
strategy ever appears in the trace. -/
lemma installLoop_packages_fail (env : Env) (c : String)
    (hi : (installLoop env c packages).1 = false) :
    ∃ pre p post, packages = pre ++ p :: post ∧
      (∀ q ∈ pre, okPkg env c q = true) ∧
      okPkg env c p = false ∧
      Event.print ("✗ Failed to install " ++ p ++ " with all methods")
        ∈ (installLoop env c packages).2 ∧
      ∀ q ∈ post, ∀ m ∈ install_methods,
        Event.shell (pipCmd c m.1 q) ∉ (installLoop env c packages).2 := by
  obtain ⟨pre, p, post, heq, hpre, hp, hrem, htr⟩ :=
    installLoop_fail_decomp env c packages hi
  refine ⟨pre, p, post, heq, hpre, hp, hrem, ?_⟩
  intro q hq m _ hmem
  rcases htr _ hmem with ⟨s, hs⟩ | ⟨q', hq', m', _, he'⟩
  · exact Event.noConfusion hs
  · have hqpk : q ∈ packages := by
      rw [heq]; exact List.mem_append_right _ (List.mem_cons_of_mem _ hq)
    have hq'pk : q' ∈ packages := by
      rw [heq]
      rcases hq' with h | h
      · exact List.mem_append_left _ h
      · exact List.mem_append_right _ (h ▸ List.mem_cons_self _ _)
    have hnd : (pre ++ p :: post).Nodup := by
      rw [← heq]; exact packages_facts.1
    have hqq' : q ≠ q' := by
      rcases hq' with h | h
      · intro hEq
        exact List.disjoint_of_nodup_append hnd h
          (hEq ▸ List.mem_cons_of_mem _ hq)
      · intro hEq
        have hpost : p ∉ post := (List.nodup_cons.mp hnd.of_append_right).1
        exact hpost (h ▸ hEq ▸ hq)
    have hlast := packages_facts.2.2.1 q hqpk q' hq'pk hqq'
    exact pipCmd_ne_pipCmd c m.1 m'.1 q q'
      (packages_facts.2.1 q hqpk) (packages_facts.2.1 q' hq'pk) hlast
      (Event.shell.inj he')

/-! ### Claim theorems -/

/-- C4: the confirmation gate proceeds exactly when the operator's input,
after trimming whitespace and lower-casing, is `y` or `yes` (trimming and
lower-casing commute, so the code's `.lower().strip()` agrees with this);
in particular `y`, `Y`, `yes`, `YES` proceed, while the empty string, `n`,
`no` and `maybe` are refused, and a refused gate in a run that reached it
prints `Setup cancelled.` and exits with code 1. -/
theorem C4_confirmation_gate :
    (∀ s : String, confirmed s = true ↔
       pyLower (pyStrip s) = "y" ∨ pyLower (pyStrip s) = "yes") ∧
    confirmed "y" = true ∧ confirmed "Y" = true ∧
    confirmed "yes" = true ∧ confirmed "YES" = true ∧
    confirmed "" = false ∧ confirmed "n" = false ∧
    confirmed "no" = false ∧ confirmed "maybe" = false ∧
    ∀ env : Env, env.checkOutputOk = true → confirmed env.userInput = false →
      script_exit env = 1 ∧ Event.print "Setup cancelled." ∈ (main_setup env).2 := by
  refine ⟨?_, by decide, by decide, by decide, by decide, by decide, by decide,
          by decide, by decide, ?_⟩
  · intro s
    simp only [confirmed, pyStrip_pyLower_comm]
    simp [Bool.or_eq_true, beq_iff_eq]
  · intro env hc hg
    constructor
    · simp [script_exit, main_setup, check_python_fst, hc, hg]
    · simp [main_setup, check_python_fst, hc, hg]

/-- C4 witness: a concrete run that reaches the gate and declines. -/
theorem C4_confirmation_gate_witness :
    script_exit envDeclines = 1 ∧
    Event.print "Setup cancelled." ∈ (main_setup envDeclines).2 :=
  C4_confirmation_gate.2.2.2.2.2.2.2.2.2 envDeclines rfl (by decide)

/-- C5: the process exit code is 0 exactly when the interpreter probe
succeeds, the operator confirms, and every package installs under some
strategy; in every run the exit code is 0 or 1 and nothing else. -/
theorem C5_exit_code (env : Env) :
    (script_exit env = 0 ↔
       env.checkOutputOk = true ∧ confirmed env.userInput = true ∧
       ∀ p ∈ packages, okPkg env (get_python_command env) p = true) ∧
    (script_exit env = 0 ∨ script_exit env = 1) := by
  have h0 : script_exit env = 0 ↔ (main_setup env).1 = true := by
    unfold script_exit
    by_cases h : (main_setup env).1 = true <;> simp [h]
  refine ⟨h0.trans (main_setup_fst env), ?_⟩
  unfold script_exit
  by_cases h : (main_setup env).1 = true <;> simp [h]

/-- C5 witness: the all-success world exits 0. -/
theorem C5_exit_code_witness : script_exit envAllOk = 0 :=
  (C5_exit_code envAllOk).1.mpr ⟨rfl, by decide, by decide⟩

/-- C6: the interpreter resolver is total by construction (a Lean function
into `String`) and deterministically prefers `python3` whenever
`shutil.which` finds it — in particular also when both commands are
available — falling back to `python` and then to `sys.executable`. -/
theorem C6_interpreter_resolver (env : Env) :
    (env.which3 = true → get_python_command env = "python3") ∧
    (env.which3 = false → env.whichGeneric = true →
       get_python_command env = "python") ∧
    (env.which3 = false → env.whichGeneric = false →
       get_python_command env = env.sysExecutable) := by
  refine ⟨fun h => by simp [get_python_command, h],
          fun h1 h2 => by simp [get_python_command, h1, h2],
          fun h1 h2 => by simp [get_python_command, h1, h2]⟩

/-- C6 witness: with both commands available the versioned one is chosen. -/
theorem C6_interpreter_resolver_witness :
    get_python_command envAllOk = "python3" :=
  (C6_interpreter_resolver envAllOk).1 rfl

/-- C10: the shell helper always returns a boolean — `True` exactly on exit
status 0 and `False` exactly on a non-zero exit status (the
`CalledProcessError` is caught, never propagated). -/
theorem C10_run_command_total_boolean (env : Env) (command : String) :
    ((run_command env command).1 = true ↔ env.shellExit command = 0) ∧
    ((run_command env command).1 = false ↔ env.shellExit command ≠ 0) := by
  constructor
  · simp [run_command]
  · simp [run_command]

/-- C10 witness: both outcomes at concrete worlds. -/
theorem C10_run_command_witness :
    (run_command envAllOk tessCmd).1 = true ∧
    (run_command envToolsMissing tessCmd).1 = false :=
  ⟨(C10_run_command_total_boolean envAllOk tessCmd).1.mpr rfl,
   (C10_run_command_total_boolean envToolsMissing tessCmd).2.mpr (by decide)⟩

/-- C2 counterexample: in a world where `shutil.which` finds `python3` but
the running interpreter is `/opt/custom/python`, the resolver's chosen
command is `python3`, yet the availability check invokes
`sys.executable` (`/opt/custom/python`) — the chosen interpreter is never
invoked, refuting the claim that the check invokes the resolver's
command. -/
theorem C2_counterexample :
    get_python_command envProbeFails = "python3" ∧
    Event.checkOutput ["/opt/custom/python", "--version"] ∈ (main_setup envProbeFails).2 ∧
    Event.checkOutput ["python3", "--version"] ∉ (main_setup envProbeFails).2 := by
  decide

/-- C2 (amended): the availability check invokes the currently executing
interpreter's own path (`sys.executable`) — not necessarily the command
returned by the interpreter resolver — with the `--version` flag, and when
that invocation fails the run reports failure (exit code 1) and stops
before any shell command, in particular any installation command, is
run. -/
theorem C2_availability_check (env : Env) :
    Event.checkOutput [env.sysExecutable, "--version"] ∈ (main_setup env).2 ∧
    (env.checkOutputOk = false →
      (main_setup env).1 = false ∧ script_exit env = 1 ∧
      ∀ s, Event.shell s ∉ (main_setup env).2) := by
  constructor
  · cases hc : env.checkOutputOk with
    | false =>
      simp [main_setup, check_python_fst, hc, check_python, mainHeader]
    | true =>
      cases hg : confirmed env.userInput with
      | false =>
        simp [main_setup, check_python_fst, hc, hg, check_python, mainHeader]
      | true =>
        cases hi : (install_dependencies env).1 with
        | false =>
          simp [main_setup, check_python_fst, hc, hg, hi, check_python, mainHeader]
        | true =>
          simp [main_setup, check_python_fst, hc, hg, hi, check_python, mainHeader]
  · intro hc
    refine ⟨by simp [main_setup, check_python_fst, hc],
            by simp [script_exit, main_setup, check_python_fst, hc], ?_⟩
    intro s
    simp [main_setup, check_python_fst, hc, check_python, mainHeader]

/-- C2 witness: a concrete failing probe stops the run with no shell
command issued. -/
theorem C2_availability_check_witness :
    script_exit envProbeFails = 1 ∧
    Event.shell (pipCmd "python3" "--user" "torch") ∉ (main_setup envProbeFails).2 :=
  ⟨((C2_availability_check envProbeFails).2 rfl).2.1,
   ((C2_availability_check envProbeFails).2 rfl).2.2 _⟩

/-- C7: every trace starts with the banner and then the interpreter probe
(so no shell command precedes the probe), and whenever the probe fails or
the operator declines, no shell command — in particular no package-manager
install command — appears anywhere in the trace. -/
theorem C7_no_install_before_gate (env : Env) :
    (∃ t, (main_setup env).2 =
       mainHeader ++ Event.checkOutput [env.sysExecutable, "--version"] :: t) ∧
    ((env.checkOutputOk = false ∨ confirmed env.userInput = false) →
      ∀ s, Event.shell s ∉ (main_setup env).2) := by
  constructor
  · cases hc : env.checkOutputOk with
    | false =>
      refine ⟨Event.print ("✗ Python not found: " ++ env.errText) ::
        [Event.print "\nPython is required but not found. Please install Python 3.7+ and try again."], ?_⟩
      simp [main_setup, check_python_fst, hc, check_python, mainHeader]
    | true =>
      cases hg : confirmed env.userInput with
      | false =>
        refine ⟨Event.print ("✓ Python found: " ++ env.versionOut) ::
          (infoPrints (get_python_command env) ++ [Event.print "Setup cancelled."]), ?_⟩
        simp [main_setup, check_python_fst, hc, hg, check_python, mainHeader]
      | true =>
        cases hi : (install_dependencies env).1 with
        | false =>
          refine ⟨Event.print ("✓ Python found: " ++ env.versionOut) ::
            (infoPrints (get_python_command env) ++ (install_dependencies env).2 ++
             failPrints (get_python_command env)), ?_⟩
          simp [main_setup, check_python_fst, hc, hg, hi, check_python, mainHeader]
        | true =>
          refine ⟨Event.print ("✓ Python found: " ++ env.versionOut) ::
            (infoPrints (get_python_command env) ++ (install_dependencies env).2 ++
             successPrints ++ check_optional_tools env ++ donePrints), ?_⟩
          simp [main_setup, check_python_fst, hc, hg, hi, check_python, mainHeader]
  · intro h s
    rcases h with hc | hg
    · simp [main_setup, check_python_fst, hc, check_python, mainHeader]
    · cases hc : env.checkOutputOk with
      | false => simp [main_setup, check_python_fst, hc, check_python, mainHeader]
      | true =>
        simp [main_setup, check_python_fst, hc, hg, check_python, mainHeader, infoPrints]

/-- C7 witness: a declined run issues no install command. -/
theorem C7_no_install_before_gate_witness :
    Event.shell (pipCmd "python3" "--user" "torch") ∉ (main_setup envDeclines).2 :=
  (C7_no_install_before_gate envDeclines).2 (Or.inr (by decide)) _

/-- C8: when an optional tool's probe fails, the probe section prints
exactly the remediation block of the current platform bucket (macOS,
Linux, or other) and none of the lines of the other two buckets, for both
Tesseract and ExifTool. -/
theorem C8_platform_hint_blocks (env : Env) :
    (env.shellExit tessCmd ≠ 0 →
      (env.platform = "darwin" →
        (∀ e ∈ tessHints "darwin", e ∈ check_optional_tools env) ∧
        (∀ e ∈ tessHints "linux", e ∉ check_optional_tools env) ∧
        Event.print "  See: https://github.com/tesseract-ocr/tesseract" ∉ check_optional_tools env) ∧
      (env.platform = "linux" →
        (∀ e ∈ tessHints "linux", e ∈ check_optional_tools env) ∧
        (∀ e ∈ tessHints "darwin", e ∉ check_optional_tools env) ∧
        Event.print "  See: https://github.com/tesseract-ocr/tesseract" ∉ check_optional_tools env) ∧
      (env.platform ≠ "darwin" → env.platform ≠ "linux" →
        Event.print "  See: https://github.com/tesseract-ocr/tesseract" ∈ check_optional_tools env ∧
        (∀ e ∈ tessHints "darwin", e ∉ check_optional_tools env) ∧
        (∀ e ∈ tessHints "linux", e ∉ check_optional_tools env))) ∧
    (env.shellExit exifCmd ≠ 0 →
      (env.platform = "darwin" →
        (∀ e ∈ exifHints "darwin", e ∈ check_optional_tools env) ∧
        (∀ e ∈ exifHints "linux", e ∉ check_optional_tools env) ∧
        Event.print "  See: https://exiftool.org/" ∉ check_optional_tools env) ∧
      (env.platform = "linux" →
        (∀ e ∈ exifHints "linux", e ∈ check_optional_tools env) ∧
        (∀ e ∈ exifHints "darwin", e ∉ check_optional_tools env) ∧
        Event.print "  See: https://exiftool.org/" ∉ check_optional_tools env) ∧
      (env.platform ≠ "darwin" → env.platform ≠ "linux" →
        Event.print "  See: https://exiftool.org/" ∈ check_optional_tools env ∧
        (∀ e ∈ exifHints "darwin", e ∉ check_optional_tools env) ∧
        (∀ e ∈ exifHints "linux", e ∉ check_optional_tools env))) := by
  constructor
  · intro ht
    have ht' : (env.shellExit tessCmd == 0) = false := beq_eq_false_iff_ne.mpr ht
    refine ⟨fun hd => ?_, fun hl => ?_, fun hd hl => ?_⟩
    · cases hex : env.shellExit exifCmd == 0 <;>
        simp [check_optional_tools, tessSection, exifSection, run_command,
              tessHints, exifHints, ht', hex, hd]
    · cases hex : env.shellExit exifCmd == 0 <;>
        simp [check_optional_tools, tessSection, exifSection, run_command,
              tessHints, exifHints, ht', hex, hl]
    · cases hex : env.shellExit exifCmd == 0 <;>
        simp [check_optional_tools, tessSection, exifSection, run_command,
              tessHints, exifHints, ht', hex, hd, hl]
  · intro hx
    have hx' : (env.shellExit exifCmd == 0) = false := beq_eq_false_iff_ne.mpr hx
    refine ⟨fun hd => ?_, fun hl => ?_, fun hd hl => ?_⟩
    · cases hts : env.shellExit tessCmd == 0 <;>
        simp [check_optional_tools, tessSection, exifSection, run_command,
              tessHints, exifHints, hx', hts, hd]
    · cases hts : env.shellExit tessCmd == 0 <;>
        simp [check_optional_tools, tessSection, exifSection, run_command,
              tessHints, exifHints, hx', hts, hl]
    · cases hts : env.shellExit tessCmd == 0 <;>
        simp [check_optional_tools, tessSection, exifSection, run_command,
              tessHints, exifHints, hx', hts, hd, hl]

/-- C8 witness: on macOS with Tesseract missing, the brew line is printed
and a Linux line is not. -/
theorem C8_platform_hint_blocks_witness :
    Event.print "  brew install tesseract" ∈ check_optional_tools envToolsMissing ∧
    Event.print "  sudo apt-get install tesseract-ocr  # Debian/Ubuntu"
      ∉ check_optional_tools envToolsMissing := by
  have h := ((C8_platform_hint_blocks envToolsMissing).1 (by decide)).1 rfl
  exact ⟨h.1 _ (by decide), h.2.1 _ (by decide)⟩

/-- C9: the two optional-tool probes are independent and non-fatal. For two
worlds that agree on everything except the outcomes of the Tesseract and
ExifTool probe commands, the process exit code is identical, and each
tool's reported section depends only on that tool's own probe outcome
(and the shared platform). -/
theorem C9_probe_independence (e1 e2 : Env) (h : agreesExceptProbes e1 e2) :
    script_exit e1 = script_exit e2 ∧
    (e1.shellExit tessCmd = e2.shellExit tessCmd → tessSection e1 = tessSection e2) ∧
    (e1.shellExit exifCmd = e2.shellExit exifCmd → exifSection e1 = exifSection e2) := by
  obtain ⟨h3, hG, hS, hC, hV, hE, hU, hP, hX⟩ := h
  have hcmd : get_python_command e1 = get_python_command e2 := by
    simp [get_python_command, h3, hG, hS]
  have hok : ∀ p ∈ packages,
      okPkg e1 (get_python_command e1) p = okPkg e2 (get_python_command e2) p := by
    intro p hp
    rw [okPkg_formula, okPkg_formula, hcmd]
    have hu := hX (pipCmd (get_python_command e2) "--user" p)
      (pipCmd_ne _ _ p tessCmd (packages_facts.2.1 p hp) (packages_facts.2.2.2.1 p hp))
      (pipCmd_ne _ _ p exifCmd (packages_facts.2.1 p hp) (packages_facts.2.2.2.2 p hp))
    have hb := hX (pipCmd (get_python_command e2) "--break-system-packages" p)
      (pipCmd_ne _ _ p tessCmd (packages_facts.2.1 p hp) (packages_facts.2.2.2.1 p hp))
      (pipCmd_ne _ _ p exifCmd (packages_facts.2.1 p hp) (packages_facts.2.2.2.2 p hp))
    rw [hu, hb]
  have hiff : (main_setup e1).1 = true ↔ (main_setup e2).1 = true := by
    rw [main_setup_fst, main_setup_fst]
    constructor
    · rintro ⟨a, b, c⟩
      exact ⟨by rw [← hC]; exact a, by rw [← hU]; exact b,
             fun p hp => by rw [← hok p hp]; exact c p hp⟩
    · rintro ⟨a, b, c⟩
      exact ⟨by rw [hC]; exact a, by rw [hU]; exact b,
             fun p hp => by rw [hok p hp]; exact c p hp⟩
  have hfst : (main_setup e1).1 = (main_setup e2).1 := by
    cases hb1 : (main_setup e1).1 <;> cases hb2 : (main_setup e2).1
    · rfl
    · exact absurd (hiff.mpr hb2) (by simp [hb1])
    · exact absurd (hiff.mp hb1) (by simp [hb2])
    · rfl
  refine ⟨by simp [script_exit, hfst], ?_, ?_⟩
  · intro ht
    simp [tessSection, run_command, ht, hP]
  · intro hx
    simp [exifSection, run_command, hx, hP]

/-- C9 witness: making both probes fail leaves the exit code unchanged. -/
theorem C9_probe_independence_witness :
    script_exit envAllOk = script_exit envProbesDiffer :=
  (C9_probe_independence envAllOk envProbesDiffer
    ⟨rfl, rfl, rfl, rfl, rfl, rfl, rfl, rfl, fun cmd h1 h2 => by
      simp [envAllOk, envProbesDiffer, h1, h2]⟩).1

lemma string_append_fold (s a b c d : String) (h : a ++ (b ++ c) = d) :
    s ++ a ++ b ++ c = s ++ d := by
  rw [String.append_assoc, String.append_assoc, h]

/-- C3: per package the strategies are tried in priority order — `--user`
first, then `--break-system-packages` — stopping at the first that exits
zero (a successful `--user` run never issues the second command); when both
fail for some package the driver prints the remediation line for that
package and returns failure with no pip command for any later package in
the fixed list ever issued. -/
theorem C3_installation_driver (env : Env) :
    (∀ p : String,
       env.shellExit (pipCmd (get_python_command env) "--user" p) = 0 →
       tryMethods env (get_python_command env) p install_methods =
         (true, [Event.shell (pipCmd (get_python_command env) "--user" p),
                 Event.print ("✓ " ++ p ++ " installed successfully (using user directory)")])) ∧
    (∀ p : String,
       env.shellExit (pipCmd (get_python_command env) "--user" p) ≠ 0 →
       env.shellExit (pipCmd (get_python_command env) "--break-system-packages" p) = 0 →
       tryMethods env (get_python_command env) p install_methods =
         (true, [Event.shell (pipCmd (get_python_command env) "--user" p),
                 Event.shell (pipCmd (get_python_command env) "--break-system-packages" p),
                 Event.print ("✓ " ++ p ++ " installed successfully (using system packages (with override))")])) ∧
    (∀ p : String,
       env.shellExit (pipCmd (get_python_command env) "--user" p) ≠ 0 →
       env.shellExit (pipCmd (get_python_command env) "--break-system-packages" p) ≠ 0 →
       tryMethods env (get_python_command env) p install_methods =
         (false, [Event.shell (pipCmd (get_python_command env) "--user" p),
                  Event.shell (pipCmd (get_python_command env) "--break-system-packages" p)])) ∧
    ((install_dependencies env).1 = false →
       ∃ pre p post, packages = pre ++ p :: post ∧
         (∀ q ∈ pre, okPkg env (get_python_command env) q = true) ∧
         okPkg env (get_python_command env) p = false ∧
         Event.print ("✗ Failed to install " ++ p ++ " with all methods")
           ∈ (install_dependencies env).2 ∧
         ∀ q ∈ post, ∀ m ∈ install_methods,
           Event.shell (pipCmd (get_python_command env) m.1 q)
             ∉ (install_dependencies env).2) := by
  refine ⟨?_, ?_, ?_, ?_⟩
  · intro p h
    have h' : (env.shellExit (pipCmd (get_python_command env) "--user" p) == 0) = true :=
      beq_iff_eq.mpr h
    simp [tryMethods, install_methods, run_command, h']
    exact string_append_fold _ _ _ _ _ (by decide)
  · intro p h1 h2
    have h1' : (env.shellExit (pipCmd (get_python_command env) "--user" p) == 0) = false :=
      beq_eq_false_iff_ne.mpr h1
    have h2' : (env.shellExit (pipCmd (get_python_command env) "--break-system-packages" p) == 0) = true :=
      beq_iff_eq.mpr h2
    simp [tryMethods, install_methods, run_command, h1', h2']
    exact string_append_fold _ _ _ _ _ (by decide)
  · intro p h1 h2
    have h1' : (env.shellExit (pipCmd (get_python_command env) "--user" p) == 0) = false :=
      beq_eq_false_iff_ne.mpr h1
    have h2' : (env.shellExit (pipCmd (get_python_command env) "--break-system-packages" p) == 0) = false :=
      beq_eq_false_iff_ne.mpr h2
    simp [tryMethods, install_methods, run_command, h1', h2']
  · intro hi
    obtain ⟨pre, p, post, heq, hpre, hp, hrem, hpost⟩ :=
      installLoop_packages_fail env (get_python_command env) hi
    refine ⟨pre, p, post, heq, hpre, hp, ?_, ?_⟩
    · exact List.mem_cons_of_mem _ (List.mem_cons_of_mem _ hrem)
    · intro q hq m hm hmem
      apply hpost q hq m hm
      simp only [install_dependencies, List.mem_cons] at hmem
      rcases hmem with h | h | h
      · exact Event.noConfusion h
      · exact Event.noConfusion h
      · exact h

/-- C3 witness: with `torch` succeeding and `transformers` failing both
strategies, the strategy loop for `transformers` issues exactly the two
commands in order and reports failure. -/
theorem C3_installation_driver_witness :
    tryMethods envSecondFails (get_python_command envSecondFails) "transformers" install_methods =
      (false, [Event.shell (pipCmd (get_python_command envSecondFails) "--user" "transformers"),
               Event.shell (pipCmd (get_python_command envSecondFails) "--break-system-packages" "transformers")]) :=
  (C3_installation_driver envSecondFails).2.2.1 "transformers" (by decide) (by decide)

/-- C1 counterexample: a concrete run where the interpreter probe succeeds,
the operator confirms, and the second package (`transformers`) fails both
strategies.  The exit code is 1, the remediation text is printed, the later
packages are never attempted — but the optional-tool probe section is NOT
executed: neither its header line nor its probe commands occur in the
trace, because `main` returns on source line 159 before the
`check_optional_tools()` call on line 161.  This refutes the claim that
the optional-tool section still runs. -/
theorem C1_counterexample :
    envSecondFails.checkOutputOk = true ∧
    confirmed envSecondFails.userInput = true ∧
    okPkg envSecondFails (get_python_command envSecondFails) "transformers" = false ∧
    script_exit envSecondFails = 1 ∧
    Event.print "\n✗ Some packages failed to install." ∈ (main_setup envSecondFails).2 ∧
    Event.shell (pipCmd "python3" "--user" "Pillow") ∉ (main_setup envSecondFails).2 ∧
    Event.shell (pipCmd "python3" "--user" "numpy") ∉ (main_setup envSecondFails).2 ∧
    Event.print "\nChecking optional tools:" ∉ (main_setup envSecondFails).2 ∧
    Event.shell tessCmd ∉ (main_setup envSecondFails).2 ∧
    Event.shell exifCmd ∉ (main_setup envSecondFails).2 := by
  decide

/-- C1 (amended): in every run where the interpreter probe succeeds, the
operator confirms, and some package fails both installation strategies,
the process exits with code 1, the remediation text is printed, no package
after the first failing one is ever attempted, and the optional-tool probe
section is NOT executed (neither probe command occurs in the trace),
because `main` returns `False` before reaching `check_optional_tools()`. -/
theorem C1_failed_install_run (env : Env)
    (hc : env.checkOutputOk = true)
    (hg : confirmed env.userInput = true)
    (hf : ∃ p ∈ packages, okPkg env (get_python_command env) p = false) :
    script_exit env = 1 ∧
    Event.print "\n✗ Some packages failed to install." ∈ (main_setup env).2 ∧
    Event.print "\nFor externally managed Python environments (like Homebrew), try:"
      ∈ (main_setup env).2 ∧
    (∃ pre p post, packages = pre ++ p :: post ∧
       (∀ q ∈ pre, okPkg env (get_python_command env) q = true) ∧
       okPkg env (get_python_command env) p = false ∧
       Event.print ("✗ Failed to install " ++ p ++ " with all methods")
         ∈ (main_setup env).2 ∧
       ∀ q ∈ post, ∀ m ∈ install_methods,
         Event.shell (pipCmd (get_python_command env) m.1 q) ∉ (main_setup env).2) ∧
    Event.shell tessCmd ∉ (main_setup env).2 ∧
    Event.shell exifCmd ∉ (main_setup env).2 := by
  obtain ⟨p0, hp0, hfail⟩ := hf
  have hi : (install_dependencies env).1 = false := by
    cases hI : (install_dependencies env).1
    · rfl
    · exact absurd ((install_dependencies_fst env).1 hI p0 hp0) (by simp [hfail])
  have htr : (main_setup env).2 =
      mainHeader ++ (check_python env).2 ++ infoPrints (get_python_command env) ++
      (install_dependencies env).2 ++ failPrints (get_python_command env) := by
    simp [main_setup, check_python_fst, hc, hg, hi]
  have hshell : ∀ s : String, Event.shell s ∈ (main_setup env).2 →
      Event.shell s ∈ (installLoop env (get_python_command env) packages).2 := by
    intro s hs
    rw [htr] at hs
    rcases List.mem_append.1 hs with hs | hs
    · rcases List.mem_append.1 hs with hs | hs
      · rcases List.mem_append.1 hs with hs | hs
        · rcases List.mem_append.1 hs with hs | hs
          · simp [mainHeader] at hs
          · simp [check_python, hc] at hs
        · simp [infoPrints] at hs
      · simp only [install_dependencies, List.mem_cons] at hs
        rcases hs with h | h | h
        · exact Event.noConfusion h
        · exact Event.noConfusion h
        · exact h
    · simp [failPrints] at hs
  obtain ⟨pre, p, post, heq, hpre, hpfail, hrem, hpost⟩ :=
    installLoop_packages_fail env (get_python_command env) hi
  refine ⟨?_, ?_, ?_, ⟨pre, p, post, heq, hpre, hpfail, ?_, ?_⟩, ?_, ?_⟩
  · simp [script_exit, main_setup, check_python_fst, hc, hg, hi]
  · rw [htr]; simp [failPrints]
  · rw [htr]; simp [failPrints]
  · rw [htr]
    exact List.mem_append_left _ (List.mem_append_right _
      (List.mem_cons_of_mem _ (List.mem_cons_of_mem _ hrem)))
  · intro q hq m hm hmem
    exact hpost q hq m hm (hshell _ hmem)
  · intro hmem
    rcases installLoop_shell_mem env (get_python_command env) packages _ (hshell _ hmem)
      with ⟨s, hs⟩ | ⟨q, hq, m, _, he⟩
    · exact Event.noConfusion hs
    · exact pipCmd_ne (get_python_command env) m.1 q tessCmd
        (packages_facts.2.1 q hq) (packages_facts.2.2.2.1 q hq)
        (Event.shell.inj he).symm
  · intro hmem
    rcases installLoop_shell_mem env (get_python_command env) packages _ (hshell _ hmem)
      with ⟨s, hs⟩ | ⟨q, hq, m, _, he⟩
    · exact Event.noConfusion hs
    · exact pipCmd_ne (get_python_command env) m.1 q exifCmd
        (packages_facts.2.1 q hq) (packages_facts.2.2.2.2 q hq)
        (Event.shell.inj he).symm

/-- C1 witness: the amended statement at the concrete failing world. -/
theorem C1_failed_install_run_witness :
    script_exit envSecondFails = 1 ∧
    Event.shell tessCmd ∉ (main_setup envSecondFails).2 :=
  ⟨(C1_failed_install_run envSecondFails rfl (by decide)
      ⟨"transformers", by decide, by decide⟩).1,
   (C1_failed_install_run envSecondFails rfl (by decide)
      ⟨"transformers", by decide, by decide⟩).2.2.2.2.1⟩
